import Mathlib

/-!
Shallow embedding of the probe/retry/classification engine of
react-health-checker (src/hooks/useHealthCheck.tsx and the HealthCheck
component).  The HTTP transport is an injected capability: attempt `i`
of a cycle is answered by `transport i`, which either returns an axios
response or raises an error value, and takes `duration` milliseconds.
Time is modelled by an explicit integer clock (performance.now()).
-/

namespace HealthChecker

/-- Published status values: 'healthy' | 'unhealthy' | 'loading'. -/
inductive Status where
  | loading
  | healthy
  | unhealthy
deriving DecidableEq, Repr

/-- The axios request config attached to responses and errors
(`response.config` / `axiosError.config`): `url`, `method`, `headers`.
Header objects and bodies are opaque payloads, modelled as strings. -/
structure AxiosConfigInfo where
  url : Option String
  method : Option String
  headers : String
deriving DecidableEq, Repr

/-- An axios response: `status`, `statusText`, `headers`, `data`, `config`. -/
structure AxiosResponseInfo where
  status : Int
  statusText : String
  headers : String
  data : String
  config : AxiosConfigInfo
deriving DecidableEq, Repr

/-- The response part echoed into `requestDetails.response`. -/
structure ResponseDetails where
  status : Int
  statusText : String
  headers : String
  data : String
deriving DecidableEq, Repr

/-- A caught error value: `message` is present exactly when the thrown
value is an `Error` instance; `config` and `response` are the optional
axios diagnostic fields read off `axiosError`. -/
structure ErrorValue where
  message : Option String
  config : Option AxiosConfigInfo
  response : Option ResponseDetails
deriving DecidableEq, Repr

/-- The request part echoed into `requestDetails.request`. -/
structure RequestInfo where
  url : String
  method : String
  headers : String
deriving DecidableEq, Repr

/-- The `requestDetails` diagnostic echo of the last request/response pair. -/
structure RequestDetails where
  request : RequestInfo
  response : Option ResponseDetails
deriving DecidableEq, Repr

/-- The published health state (interface IHealthStatus plus `rawError`).
Optional fields are `none` when the corresponding TS field is undefined;
`lastChecked` is the clock value at which the Date was taken. -/
structure HealthState where
  status : Status
  lastChecked : Option Int
  error : Option String := none
  responseTime : Option Int := none
  retryCount : Option Nat := none
  rawError : Option ErrorValue := none
  requestDetails : Option RequestDetails := none
deriving DecidableEq, Repr

/-- Initial state of the hook: `{ status: 'loading', lastChecked: null }`. -/
def initialHealth : HealthState :=
  { status := .loading, lastChecked := none }

/-- Configuration surface of the hook (HealthCheckOptions) with the
source's default values. -/
structure HealthCheckOptions where
  url : String
  interval : Int := 30000
  enabled : Bool := true
  retryAttempts : Int := 3
  retryDelay : Int := 5000
  responseTimeThreshold : Int := 1000
deriving DecidableEq, Repr

/-- Result of one transport attempt: `axios.get` either resolves with a
response or rejects with an error value. -/
inductive AttemptResult where
  | ok (resp : AxiosResponseInfo)
  | err (e : ErrorValue)
deriving DecidableEq, Repr

/-- One transport attempt: its outcome together with the time the
awaited `axios.get` call takes. -/
structure AttemptOutcome where
  duration : Int
  result : AttemptResult
deriving DecidableEq, Repr

/-- JavaScript `x || d` for a possibly-undefined string `x`: the default
is used when `x` is undefined or the empty string (both falsy). -/
def jsOrString : Option String → String → String
  | none, d => d
  | some s, d => if s = "" then d else s

/-- An empty-object placeholder for the `|| \x7b\x7d` headers fallback. -/
def emptyHeadersObject : String := "\x7b\x7d"

/-- The `requestDetails` recorded by the success branch (lines 43-55):
request data from `response.config` (with `|| ''` fallbacks and
upper-cased method), response data echoed verbatim. -/
def successDetails (resp : AxiosResponseInfo) : RequestDetails :=
  { request :=
      { url := jsOrString resp.config.url ""
        method := jsOrString (resp.config.method.map String.toUpper) ""
        headers := resp.config.headers }
    response := some
      { status := resp.status
        statusText := resp.statusText
        headers := resp.headers
        data := resp.data } }

/-- The `requestDetails` recorded by the failure branch (lines 86-100):
request data from `axiosError.config` with fallbacks to the configured
url, 'GET' and an empty headers object; response echo only when the
error carries a response. -/
def failureDetails (url : String) (e : ErrorValue) : RequestDetails :=
  { request :=
      { url := jsOrString (e.config.bind (·.url)) url
        method := jsOrString ((e.config.bind (·.method)).map String.toUpper) "GET"
        headers := (e.config.map (·.headers)).getD emptyHeadersObject }
    response := e.response }

/-- The error thrown for a non-200 response (line 67):
`new Error('HTTP <code>: <statusText>')` — an Error instance with no
axios config or response attached. -/
def httpErrorOf (resp : AxiosResponseInfo) : ErrorValue :=
  { message := some ("HTTP " ++ toString resp.status ++ ": " ++ resp.statusText)
    config := none
    response := none }

/-- The message of the Error handed to onUnhealthy for a slow 200
response (lines 59-61). -/
def slowResponseMessage (responseTime threshold : Int) : String :=
  "Response time (" ++ toString responseTime ++ "ms) exceeded threshold (" ++
    toString threshold ++ "ms)"

/-- The message extracted from a caught error (line 70):
`error instanceof Error ? error.message : 'Unknown error occurred'`. -/
def errorMessageOf (e : ErrorValue) : String :=
  match e.message with
  | some m => m
  | none => "Unknown error occurred"

/-- The terminal publication of a probe cycle.  A `success` publication
is the single `setHealth` of the 200 branch (lines 35-56, the status
already classified against the threshold); a `failure` publication is
the `setHealth` of the exhausted-retries branch (lines 79-101). -/
inductive Publication where
  | success (status : Status) (now : Int) (responseTime : Int) (details : RequestDetails)
  | failure (now : Int) (errorMessage : String) (rawError : ErrorValue)
      (retryCount : Nat) (details : RequestDetails)
deriving DecidableEq, Repr

/-- Apply a publication to the previous state, mirroring the two
`setHealth((prev) => ( \x7b ...prev, ... \x7d ))` merges: only the fields
the source writes change; in particular the failure merge does not
write `responseTime`. -/
def applyPublication : Publication → HealthState → HealthState
  | .success st now rt det, prev =>
    { prev with
      status := st
      lastChecked := some now
      error := none
      rawError := none
      responseTime := some rt
      retryCount := some 0
      requestDetails := some det }
  | .failure now msg raw rc det, prev =>
    { prev with
      status := .unhealthy
      lastChecked := some now
      error := some msg
      rawError := some raw
      retryCount := some rc
      requestDetails := some det }

/-- A probe cycle's callback effects: `onHealthy(response)` or
`onUnhealthy(error)` (the latter always carries an Error whose message
we record). -/
inductive CallbackEvent where
  | onHealthy (resp : AxiosResponseInfo)
  | onUnhealthy (message : String)
deriving DecidableEq, Repr

/-- Everything one completed probe cycle produces: the single terminal
publication, the callback invocations of the cycle in order, the total
number of transport attempts performed, and the clock at completion. -/
structure CycleRes where
  publication : Publication
  events : List CallbackEvent
  attempts : Nat
  finalClock : Int
deriving DecidableEq, Repr

/-- The recursive `attemptHealthCheck` closure (lines 26-104).
`currentRetry` and `clock` are the mutable `currentRetry` and the
current time; `startTime` is captured at cycle start (line 23).  The
`fuel` argument bounds the recursion depth; it is spent only on the
`currentRetry < retryAttempts` path, so starting fuel
`retryAttempts.toNat + 1` can never run out (`attemptHealthCheck_isSome`),
and exhaustion returns `none`. -/
def attemptHealthCheck (cfg : HealthCheckOptions) (transport : Nat → AttemptOutcome)
    (startTime : Int) : Nat → Nat → Int → Option CycleRes
  | 0, _, _ => none
  | fuel + 1, currentRetry, clock =>
    let o := transport currentRetry
    let now := clock + o.duration
    let handleError : ErrorValue → Option CycleRes := fun e =>
      let errorMessage := errorMessageOf e
      if (currentRetry : Int) < cfg.retryAttempts then
        attemptHealthCheck cfg transport startTime fuel (currentRetry + 1)
          (now + cfg.retryDelay)
      else
        some
          { publication := .failure now errorMessage e currentRetry
              (failureDetails cfg.url e)
            events := [.onUnhealthy errorMessage]
            attempts := currentRetry + 1
            finalClock := now }
    match o.result with
    | .ok resp =>
      let responseTime := now - startTime
      if resp.status = 200 then
        let isSlow : Bool := responseTime > cfg.responseTimeThreshold
        let status : Status := if isSlow then .unhealthy else .healthy
        some
          { publication := .success status now responseTime (successDetails resp)
            events :=
              [if isSlow then
                .onUnhealthy (slowResponseMessage responseTime cfg.responseTimeThreshold)
              else .onHealthy resp]
            attempts := currentRetry + 1
            finalClock := now }
      else
        handleError (httpErrorOf resp)
    | .err e => handleError e

/-- The `checkHealth` callback (lines 20-107): bail out when disabled,
otherwise capture `startTime`, set `currentRetry = 0` and run the
attempt loop.  Fuel `retryAttempts.toNat + 1` is always sufficient. -/
def checkHealth (cfg : HealthCheckOptions) (transport : Nat → AttemptOutcome)
    (startTime : Int) : Option CycleRes :=
  if cfg.enabled then
    attemptHealthCheck cfg transport startTime (cfg.retryAttempts.toNat + 1) 0 startTime
  else
    none

/-- The `setHealth` merge run by the hook's effect when `enabled` is
false (lines 111-118): status back to loading, `lastChecked`, `error`,
`rawError` and `requestDetails` cleared; other fields untouched. -/
def resetOnDisabled (prev : HealthState) : HealthState :=
  { prev with
    status := .loading
    lastChecked := none
    error := none
    rawError := none
    requestDetails := none }

/-- The `setHealth` merge run by the HealthCheck component's effect on
a `url` change (component lines 177-186): the same field set as the
disabled reset — `responseTime` and `retryCount` are not written. -/
def urlResetUpdate (prev : HealthState) : HealthState :=
  { prev with
    status := .loading
    lastChecked := none
    error := none
    rawError := none
    requestDetails := none }

/-- Total time a cycle spends from the start of attempt `cr` to the end
of attempt `cr + n` when every attempt but the last fails: the durations
of the `n + 1` attempts plus the `n` retry delays in between. -/
def cycleDuration (tr : Nat → AttemptOutcome) (delay : Int) : Nat → Nat → Int
  | cr, 0 => (tr cr).duration
  | cr, n + 1 => (tr cr).duration + delay + cycleDuration tr delay (cr + 1) n

/-- Total latency of a cycle that succeeds on attempt `k` after `k`
failed attempts: the sum of all `k + 1` attempt durations plus the `k`
retry delays. -/
def totalCycleTime (tr : Nat → AttemptOutcome) (delay : Int) (k : Nat) : Int :=
  (∑ i in Finset.range (k + 1), (tr i).duration) + k * delay

/-- Spec §3 invariant on a published state: healthy implies no error
and a recorded response time within the threshold; unhealthy implies an
error is present or the recorded response time exceeds the threshold. -/
def statusInvariant (threshold : Int) (s : HealthState) : Prop :=
  (s.status = .healthy →
    s.error = none ∧ ∃ rt, s.responseTime = some rt ∧ rt ≤ threshold) ∧
  (s.status = .unhealthy →
    s.error ≠ none ∨ ∃ rt, s.responseTime = some rt ∧ threshold < rt)

/-- State of the effect machinery around one monitor instance:
the current published health, the `isSubscribed` flag of the live
effect closure, and an in-flight cycle's pending result, if any. -/
structure MonitorState where
  health : HealthState
  subscribed : Bool
  inflight : Option Publication
deriving DecidableEq, Repr

/-- Events on the effect machinery.  `startCycle pub` is `runHealthCheck`
firing and launching a cycle whose eventual publication is `pub`;
`completeInflight` is the awaited cycle resolving; `disableMonitor` is
the effect cleanup plus the disabled-effect body running. -/
inductive MonitorEvent where
  | startCycle (pub : Publication)
  | completeInflight
  | disableMonitor
deriving DecidableEq, Repr

/-- One step of the effect machinery, read off the source:
`runHealthCheck` checks `isSubscribed` only before starting a cycle
(line 126); when the awaited cycle resolves, its `setHealth` runs with
no guard (lines 79 and 35), so a pending publication is applied even
after cleanup; the cleanup (lines 134-138) sets `isSubscribed` to false
and calls `controller.abort()`, but `controller.signal` is never passed
to `axios.get(url)` (line 28), so the in-flight request is not
cancelled and its pending publication survives; the disable branch of
the effect (lines 110-120) also resets the published state. -/
def stepMonitor : MonitorState → MonitorEvent → MonitorState
  | s, .startCycle pub => if s.subscribed then { s with inflight := some pub } else s
  | s, .completeInflight =>
    match s.inflight with
    | some pub => { s with health := applyPublication pub s.health, inflight := none }
    | none => s
  | s, .disableMonitor =>
    { health := resetOnDisabled s.health, subscribed := false, inflight := s.inflight }

/-- A transport-level network error with no response attached. -/
def errNet : ErrorValue := { message := some "Network Error", config := none, response := none }

/-- A transport that fails every attempt with a network error, each
attempt taking 5ms. -/
def trFailNet : Nat → AttemptOutcome := fun _ => { duration := 5, result := .err errNet }

/-- A 200 response. -/
def respOk : AxiosResponseInfo :=
  { status := 200, statusText := "OK", headers := "response-headers", data := "pong"
    config := { url := some "https://api.example.com/health", method := some "get",
                headers := "request-headers" } }

/-- A 404 response (non-200 status the transport did not raise). -/
def resp404 : AxiosResponseInfo :=
  { status := 404, statusText := "Not Found", headers := "response-headers", data := ""
    config := { url := some "https://api.example.com/health", method := some "get",
                headers := "request-headers" } }

/-- A configuration with two retries and short delays. -/
def cfgR2 : HealthCheckOptions :=
  { url := "https://api.example.com/health", retryAttempts := 2, retryDelay := 7
    responseTimeThreshold := 1000 }

/-- A configuration with a single retry. -/
def cfgR1 : HealthCheckOptions :=
  { url := "https://api.example.com/health", retryAttempts := 1, retryDelay := 7
    responseTimeThreshold := 1000 }

/-- A transport that fails the first attempt and then answers 200 in
10ms. -/
def trFailThenOk : Nat → AttemptOutcome := fun i =>
  if i = 0 then { duration := 5, result := .err errNet }
  else { duration := 10, result := .ok respOk }

/-- A transport answering 404 on every attempt, 5ms each. -/
def tr404 : Nat → AttemptOutcome := fun _ => { duration := 5, result := .ok resp404 }

/-- An invalid configuration in the sense of spec §4.4: empty URL,
negative retryAttempts, non-positive interval and threshold. -/
def cfgInvalid : HealthCheckOptions :=
  { url := "", interval := 0, enabled := true, retryAttempts := -1, retryDelay := 0
    responseTimeThreshold := 0 }

/-- A settled healthy state from an earlier successful cycle, with a
recorded response time and retry count. -/
def prevSettled : HealthState :=
  { status := .healthy, lastChecked := some 100, error := none, responseTime := some 50
    retryCount := some 2, rawError := none, requestDetails := none }

theorem cycleDuration_eq_sum (tr : Nat → AttemptOutcome) (delay : Int) :
    ∀ (n cr : Nat), cycleDuration tr delay cr n =
      (∑ i in Finset.range (n + 1), (tr (cr + i)).duration) + n * delay := by
  intro n
  induction n with
  | zero => intro cr; simp [cycleDuration]
  | succ m ih =>
    intro cr
    rw [cycleDuration, ih (cr + 1)]
    conv_rhs => rw [Finset.sum_range_succ']
    have hcongr : (∑ i in Finset.range (m + 1), (tr (cr + 1 + i)).duration) =
        ∑ i in Finset.range (m + 1), (tr (cr + (i + 1))).duration := by
      refine Finset.sum_congr rfl fun i _ => ?_
      congr 2
      omega
    rw [hcongr]
    simp only [Nat.add_zero]
    push_cast
    ring

theorem attemptHealthCheck_isSome (cfg : HealthCheckOptions) (tr : Nat → AttemptOutcome)
    (st : Int) :
    ∀ (fuel cr : Nat) (clock : Int), cfg.retryAttempts ≤ (cr : Int) + (fuel : Int) →
      (attemptHealthCheck cfg tr st (fuel + 1) cr clock).isSome = true := by
  intro fuel
  induction fuel with
  | zero =>
    intro cr clock h
    have hnot : ¬ ((cr : Int) < cfg.retryAttempts) := by push_cast at h; omega
    rw [attemptHealthCheck]
    rcases hres : (tr cr).result with resp | e
    · simp only [hres]
      simp [hnot]
      split <;> simp
    · simp [hres, hnot]
  | succ f ih =>
    intro cr clock h
    rw [attemptHealthCheck]
    by_cases hc : (cr : Int) < cfg.retryAttempts
    · rcases hres : (tr cr).result with resp | e
      · simp [hres, hc]
        split
        · simp
        · exact ih _ _ (by push_cast at h ⊢; omega)
      · simp [hres, hc]
        exact ih _ _ (by push_cast at h ⊢; omega)
    · rcases hres : (tr cr).result with resp | e
      · simp [hres, hc]
        split <;> simp
      · simp [hres, hc]

theorem attemptHealthCheck_allFail (cfg : HealthCheckOptions) (tr : Nat → AttemptOutcome)
    (st : Int) (N : Nat) (e : Nat → ErrorValue)
    (hN : cfg.retryAttempts = (N : Int))
    (herr : ∀ i, i ≤ N → (tr i).result = .err (e i)) :
    ∀ (n fuel cr : Nat) (clock : Int), cr + n = N → n < fuel →
      attemptHealthCheck cfg tr st fuel cr clock =
        some
          { publication := .failure (clock + cycleDuration tr cfg.retryDelay cr n)
              (errorMessageOf (e N)) (e N) N (failureDetails cfg.url (e N))
            events := [.onUnhealthy (errorMessageOf (e N))]
            attempts := N + 1
            finalClock := clock + cycleDuration tr cfg.retryDelay cr n } := by
  intro n
  induction n with
  | zero =>
    intro fuel cr clock hcr hfuel
    obtain ⟨f, rfl⟩ : ∃ f, fuel = f + 1 := ⟨fuel - 1, by omega⟩
    have hcrN : cr = N := by omega
    subst hcrN
    have hnot : ¬ ((cr : Int) < cfg.retryAttempts) := by rw [hN]; omega
    rw [attemptHealthCheck]
    simp [herr cr le_rfl, hnot, cycleDuration, hN]
  | succ m ih =>
    intro fuel cr clock hcr hfuel
    obtain ⟨f, rfl⟩ : ∃ f, fuel = f + 1 := ⟨fuel - 1, by omega⟩
    have hcrN : cr < N := by omega
    have hcond : (cr : Int) < cfg.retryAttempts := by
      rw [hN]; exact_mod_cast hcrN
    rw [attemptHealthCheck]
    simp only [herr cr (by omega), hcond, if_true]
    rw [ih f (cr + 1) (clock + (tr cr).duration + cfg.retryDelay) (by omega) (by omega)]
    simp only [cycleDuration]
    ring_nf

theorem attemptHealthCheck_successAt (cfg : HealthCheckOptions) (tr : Nat → AttemptOutcome)
    (st : Int) (k : Nat) (resp : AxiosResponseInfo)
    (herr : ∀ i, i < k → ∃ ev, (tr i).result = .err ev)
    (hok : (tr k).result = .ok resp) (h200 : resp.status = 200)
    (hk : (k : Int) ≤ cfg.retryAttempts) :
    ∀ (n fuel cr : Nat) (clock : Int), cr + n = k → n < fuel →
      attemptHealthCheck cfg tr st fuel cr clock =
        some
          { publication := .success
              (if cfg.responseTimeThreshold < clock + cycleDuration tr cfg.retryDelay cr n - st
               then .unhealthy else .healthy)
              (clock + cycleDuration tr cfg.retryDelay cr n)
              (clock + cycleDuration tr cfg.retryDelay cr n - st) (successDetails resp)
            events :=
              [if cfg.responseTimeThreshold < clock + cycleDuration tr cfg.retryDelay cr n - st
               then .onUnhealthy (slowResponseMessage
                  (clock + cycleDuration tr cfg.retryDelay cr n - st) cfg.responseTimeThreshold)
               else .onHealthy resp]
            attempts := k + 1
            finalClock := clock + cycleDuration tr cfg.retryDelay cr n } := by
  intro n
  induction n with
  | zero =>
    intro fuel cr clock hcr hfuel
    obtain ⟨f, rfl⟩ : ∃ f, fuel = f + 1 := ⟨fuel - 1, by omega⟩
    have hcrN : cr = k := by omega
    subst hcrN
    rw [attemptHealthCheck]
    simp [hok, h200, cycleDuration]
  | succ m ih =>
    intro fuel cr clock hcr hfuel
    obtain ⟨f, rfl⟩ : ∃ f, fuel = f + 1 := ⟨fuel - 1, by omega⟩
    have hcrN : cr < k := by omega
    have hcond : (cr : Int) < cfg.retryAttempts := by
      have : (cr : Int) < (k : Int) := by exact_mod_cast hcrN
      omega
    obtain ⟨ev, hev⟩ := herr cr hcrN
    rw [attemptHealthCheck]
    simp only [hev, hcond, if_true]
    rw [ih f (cr + 1) (clock + (tr cr).duration + cfg.retryDelay) (by omega) (by omega)]
    simp only [cycleDuration]
    ring_nf

theorem attemptHealthCheck_shape (cfg : HealthCheckOptions) (tr : Nat → AttemptOutcome)
    (st : Int) :
    ∀ (fuel cr : Nat) (clock : Int) (res : CycleRes),
      attemptHealthCheck cfg tr st fuel cr clock = some res →
      cr < res.attempts ∧
      ((∃ now rt det, res.publication = .success
          (if cfg.responseTimeThreshold < rt then .unhealthy else .healthy) now rt det) ∨
       (∃ now msg ev rc det, res.publication = .failure now msg ev rc det)) := by
  intro fuel
  induction fuel with
  | zero => intro cr clock res h; simp [attemptHealthCheck] at h
  | succ f ih =>
    intro cr clock res h
    rw [attemptHealthCheck] at h
    rcases hres : (tr cr).result with resp | e
    · simp only [hres] at h
      by_cases h200 : resp.status = 200
      · simp only [h200, if_true] at h
        obtain rfl := Option.some.inj h
        refine ⟨Nat.lt_succ_self _, Or.inl ⟨clock + (tr cr).duration,
          clock + (tr cr).duration - st, successDetails resp, ?_⟩⟩
        simp [gt_iff_lt]
      · simp only [h200, if_neg, ite_false] at h
        by_cases hc : (cr : Int) < cfg.retryAttempts
        · simp only [hc, if_true] at h
          obtain ⟨h1, h2⟩ := ih _ _ _ h
          exact ⟨by omega, h2⟩
        · simp only [hc, if_false] at h
          obtain rfl := Option.some.inj h
          exact ⟨Nat.lt_succ_self _, Or.inr ⟨_, _, _, _, _, rfl⟩⟩
    · simp only [hres] at h
      by_cases hc : (cr : Int) < cfg.retryAttempts
      · simp only [hc, if_true] at h
        obtain ⟨h1, h2⟩ := ih _ _ _ h
        exact ⟨by omega, h2⟩
      · simp only [hc, if_false] at h
        obtain rfl := Option.some.inj h
        exact ⟨Nat.lt_succ_self _, Or.inr ⟨_, _, _, _, _, rfl⟩⟩

theorem attemptHealthCheck_non200 (cfg : HealthCheckOptions) (tr : Nat → AttemptOutcome)
    (st : Int) (k : Nat) (resp : AxiosResponseInfo)
    (hok : (tr k).result = .ok resp) (h200 : resp.status ≠ 200) :
    ∀ (fuel cr : Nat) (clock : Int),
      attemptHealthCheck cfg tr st fuel cr clock =
      attemptHealthCheck cfg
        (fun i => if i = k then
            { duration := (tr i).duration, result := .err (httpErrorOf resp) }
          else tr i) st fuel cr clock := by
  intro fuel
  induction fuel with
  | zero => intro cr clock; rfl
  | succ f ih =>
    intro cr clock
    rw [attemptHealthCheck, attemptHealthCheck]
    by_cases hck : cr = k
    · subst hck
      simp only [if_pos rfl, hok, h200, if_neg, ite_false]
      split
      · exact ih _ _
      · rfl
    · simp only [if_neg hck]
      rcases hres : (tr cr).result with r | e
      · simp only [hres]
        split
        · rfl
        · split
          · exact ih _ _
          · rfl
      · simp only [hres]
        split
        · exact ih _ _
        · rfl

theorem cycleDuration_zero_eq (tr : Nat → AttemptOutcome) (delay : Int) (k : Nat) :
    cycleDuration tr delay 0 k = totalCycleTime tr delay k := by
  rw [cycleDuration_eq_sum, totalCycleTime]
  simp


/-- C1: with `retryAttempts = N` and a transport failing every attempt,
one probe cycle performs exactly N + 1 attempts, publishes final status
'unhealthy' with retryCount = N, and invokes onUnhealthy exactly once
(with the final attempt's error). -/
theorem C1_all_fail_exhausts_retries (cfg : HealthCheckOptions)
    (tr : Nat → AttemptOutcome) (st : Int) (N : Nat) (e : Nat → ErrorValue)
    (hen : cfg.enabled = true) (hN : cfg.retryAttempts = (N : Int))
    (herr : ∀ i, i ≤ N → (tr i).result = .err (e i)) (prev : HealthState) :
    (checkHealth cfg tr st).map (fun res =>
        (res.attempts, res.events,
         (applyPublication res.publication prev).status,
         (applyPublication res.publication prev).retryCount)) =
      some (N + 1, [.onUnhealthy (errorMessageOf (e N))], .unhealthy, some N) := by
  rw [checkHealth, if_pos hen,
    attemptHealthCheck_allFail cfg tr st N e hN herr N (cfg.retryAttempts.toNat + 1) 0 st
      (by omega) (by rw [hN]; omega)]
  simp [applyPublication]

/-- C1 witness: two configured retries against an always-failing
transport give 3 attempts, unhealthy, retryCount 2, one onUnhealthy. -/
theorem C1_witness :
    cfgR2.enabled = true ∧ cfgR2.retryAttempts = ((2 : Nat) : Int) ∧
    (trFailNet 2).result = .err errNet ∧
    (checkHealth cfgR2 trFailNet 0).map (fun res =>
        (res.attempts, res.events,
         (applyPublication res.publication initialHealth).status,
         (applyPublication res.publication initialHealth).retryCount)) =
      some (2 + 1, [.onUnhealthy (errorMessageOf errNet)], .unhealthy, some 2) :=
  ⟨rfl, rfl, rfl,
    C1_all_fail_exhausts_retries cfgR2 trFailNet 0 2 (fun _ => errNet) rfl rfl
      (fun _ _ => rfl) initialHealth⟩

/-- C2 counterexample: with `retryAttempts = 1`, a transport that fails
the first attempt and then succeeds within the threshold, the code
publishes retryCount = 0, not retryCount = 1 as the claim states. -/
theorem C2_counterexample :
    (checkHealth cfgR1 trFailThenOk 0).map (fun res =>
        ((applyPublication res.publication initialHealth).status,
         (applyPublication res.publication initialHealth).retryCount)) =
      some (.healthy, some 0) ∧
    ¬ (checkHealth cfgR1 trFailThenOk 0).map (fun res =>
        ((applyPublication res.publication initialHealth).status,
         (applyPublication res.publication initialHealth).retryCount)) =
      some (.healthy, some 1) := by
  exact ⟨by decide, by decide⟩

/-- C2 amended: when the transport fails the first N attempts and then
succeeds within the latency threshold, the cycle publishes status
'healthy' with retryCount = 0 (the success publication unconditionally
resets retryCount to 0 regardless of the retries actually consumed),
invokes onHealthy exactly once and onUnhealthy zero times. -/
theorem C2_success_after_retries_resets_retryCount (cfg : HealthCheckOptions)
    (tr : Nat → AttemptOutcome) (st : Int) (N : Nat) (resp : AxiosResponseInfo)
    (e : Nat → ErrorValue)
    (hen : cfg.enabled = true) (hN : cfg.retryAttempts = (N : Int)) (hNpos : 0 < N)
    (herr : ∀ i, i < N → (tr i).result = .err (e i))
    (hok : (tr N).result = .ok resp) (h200 : resp.status = 200)
    (hfast : totalCycleTime tr cfg.retryDelay N ≤ cfg.responseTimeThreshold)
    (prev : HealthState) :
    (checkHealth cfg tr st).map (fun res =>
        (res.events,
         (applyPublication res.publication prev).status,
         (applyPublication res.publication prev).retryCount)) =
      some ([.onHealthy resp], .healthy, some 0) := by
  rw [checkHealth, if_pos hen,
    attemptHealthCheck_successAt cfg tr st N resp (fun i hi => ⟨e i, herr i hi⟩) hok h200
      (by rw [hN]) N (cfg.retryAttempts.toNat + 1) 0 st (by omega) (by rw [hN]; omega)]
  have hrt : st + cycleDuration tr cfg.retryDelay 0 N - st =
      totalCycleTime tr cfg.retryDelay N := by
    rw [cycleDuration_zero_eq]; ring
  simp only [Option.map_some', hrt, not_lt.mpr hfast, if_false, applyPublication]

/-- C2 amended witness: one retry, then a fast 200 — healthy with
retryCount 0, one onHealthy call. -/
theorem C2_witness :
    cfgR1.enabled = true ∧ cfgR1.retryAttempts = ((1 : Nat) : Int) ∧
    (trFailThenOk 0).result = .err errNet ∧ (trFailThenOk 1).result = .ok respOk ∧
    respOk.status = 200 ∧
    totalCycleTime trFailThenOk cfgR1.retryDelay 1 ≤ cfgR1.responseTimeThreshold ∧
    (checkHealth cfgR1 trFailThenOk 0).map (fun res =>
        (res.events,
         (applyPublication res.publication initialHealth).status,
         (applyPublication res.publication initialHealth).retryCount)) =
      some ([.onHealthy respOk], .healthy, some 0) :=
  ⟨rfl, rfl, rfl, rfl, rfl, by decide,
    C2_success_after_retries_resets_retryCount cfgR1 trFailThenOk 0 1 respOk (fun _ => errNet)
      rfl rfl (by decide) (fun i hi => by rw [show i = 0 by omega]; rfl) rfl rfl (by decide)
      initialHealth⟩

/-- C3: a 200 response on the first attempt is classified against the
threshold: within it, healthy with no error and one onHealthy call; over
it, unhealthy with exactly one attempt (no retry) and an onUnhealthy
error message containing both the elapsed time and the threshold. -/
theorem C3_threshold_classification (cfg : HealthCheckOptions)
    (tr : Nat → AttemptOutcome) (st : Int) (resp : AxiosResponseInfo)
    (hen : cfg.enabled = true) (hok : (tr 0).result = .ok resp)
    (h200 : resp.status = 200) (prev : HealthState) :
    ((tr 0).duration ≤ cfg.responseTimeThreshold →
      (checkHealth cfg tr st).map (fun res =>
          (res.attempts, res.events,
           (applyPublication res.publication prev).status,
           (applyPublication res.publication prev).error)) =
        some (1, [.onHealthy resp], .healthy, none)) ∧
    (cfg.responseTimeThreshold < (tr 0).duration →
      ((checkHealth cfg tr st).map (fun res =>
          (res.attempts, res.events,
           (applyPublication res.publication prev).status)) =
        some (1, [.onUnhealthy (slowResponseMessage (tr 0).duration
                    cfg.responseTimeThreshold)], .unhealthy)) ∧
      (∃ a b, slowResponseMessage (tr 0).duration cfg.responseTimeThreshold =
          a ++ toString ((tr 0).duration) ++ b) ∧
      (∃ a b, slowResponseMessage (tr 0).duration cfg.responseTimeThreshold =
          a ++ toString cfg.responseTimeThreshold ++ b)) := by
  have hrt : st + (tr 0).duration - st = (tr 0).duration := by ring
  rw [checkHealth, if_pos hen, attemptHealthCheck]
  simp only [hok, h200, if_pos rfl, hrt]
  constructor
  · intro hfast
    simp [not_lt.mpr hfast, applyPublication, gt_iff_lt, hrt]
  · intro hslow
    refine ⟨by simp [hslow, applyPublication, gt_iff_lt, hrt], ?_, ?_⟩
    · exact ⟨"Response time (",
        "ms) exceeded threshold (" ++ toString cfg.responseTimeThreshold ++ "ms)",
        by simp [slowResponseMessage, String.append_assoc]⟩
    · exact ⟨"Response time (" ++ toString ((tr 0).duration) ++ "ms) exceeded threshold (",
        "ms)", by simp [slowResponseMessage, String.append_assoc]⟩

/-- C3 witness: a first-attempt 200 in 5ms against a 1000ms threshold. -/
theorem C3_witness :
    cfgR2.enabled = true ∧ ((fun _ => AttemptOutcome.mk 5 (.ok respOk)) 0).result = .ok respOk ∧
    respOk.status = 200 ∧
    (((fun _ => AttemptOutcome.mk 5 (.ok respOk)) 0).duration ≤ cfgR2.responseTimeThreshold →
      (checkHealth cfgR2 (fun _ => AttemptOutcome.mk 5 (.ok respOk)) 0).map (fun res =>
          (res.attempts, res.events,
           (applyPublication res.publication initialHealth).status,
           (applyPublication res.publication initialHealth).error)) =
        some (1, [.onHealthy respOk], .healthy, none)) :=
  ⟨rfl, rfl, rfl,
    (C3_threshold_classification cfgR2 (fun _ => AttemptOutcome.mk 5 (.ok respOk)) 0 respOk
      rfl rfl rfl initialHealth).1⟩

/-- C4: on a success at attempt k after k failures, the responseTime
recorded and compared against the threshold is the total cycle latency:
the sum of all k + 1 attempt durations plus the k retry delays, measured
from the start of the cycle's first attempt, never reset between
retries. -/
theorem C4_latency_accumulates_across_retries (cfg : HealthCheckOptions)
    (tr : Nat → AttemptOutcome) (st : Int) (k : Nat) (resp : AxiosResponseInfo)
    (hen : cfg.enabled = true) (hk : (k : Int) ≤ cfg.retryAttempts)
    (herr : ∀ i, i < k → ∃ ev, (tr i).result = .err ev)
    (hok : (tr k).result = .ok resp) (h200 : resp.status = 200) :
    totalCycleTime tr cfg.retryDelay k =
      (∑ i in Finset.range (k + 1), (tr i).duration) + k * cfg.retryDelay ∧
    (checkHealth cfg tr st).map (fun res => res.publication) =
      some (.success
        (if cfg.responseTimeThreshold < totalCycleTime tr cfg.retryDelay k
         then .unhealthy else .healthy)
        (st + totalCycleTime tr cfg.retryDelay k)
        (totalCycleTime tr cfg.retryDelay k) (successDetails resp)) ∧
    ∀ prev, (checkHealth cfg tr st).map
        (fun res => (applyPublication res.publication prev).responseTime) =
      some (some (totalCycleTime tr cfg.retryDelay k)) := by
  have hrun := attemptHealthCheck_successAt cfg tr st k resp herr hok h200 hk
    k (cfg.retryAttempts.toNat + 1) 0 st (by omega) (by omega)
  have hrt : st + cycleDuration tr cfg.retryDelay 0 k - st =
      totalCycleTime tr cfg.retryDelay k := by
    rw [cycleDuration_zero_eq]; ring
  refine ⟨rfl, ?_, ?_⟩
  · rw [checkHealth, if_pos hen, hrun]
    simp only [Option.map_some', hrt]
    simp only [cycleDuration_zero_eq]
  · intro prev
    rw [checkHealth, if_pos hen, hrun]
    simp only [Option.map_some', hrt, applyPublication]

/-- C4 witness: one failed attempt (5ms), a 7ms retry delay and a 10ms
success give a recorded responseTime of 22ms, the whole cycle. -/
theorem C4_witness :
    cfgR1.enabled = true ∧ ((1 : Nat) : Int) ≤ cfgR1.retryAttempts ∧
    (trFailThenOk 1).result = .ok respOk ∧ respOk.status = 200 ∧
    totalCycleTime trFailThenOk cfgR1.retryDelay 1 = 22 ∧
    (checkHealth cfgR1 trFailThenOk 0).map
        (fun res => (applyPublication res.publication initialHealth).responseTime) =
      some (some (totalCycleTime trFailThenOk cfgR1.retryDelay 1)) :=
  ⟨rfl, by decide, rfl, rfl, by decide,
    (C4_latency_accumulates_across_retries cfgR1 trFailThenOk 0 1 respOk rfl (by decide)
      (fun i hi => ⟨errNet, by rw [show i = 0 by omega]; rfl⟩) rfl rfl).2.2 initialHealth⟩

/-- C5: a response with a non-200 status that the transport did not
raise is converted to a Failure whose Error message is
'HTTP <code>: <statusText>', and the whole cycle behaves exactly as if
the transport itself had raised that error on the same attempt — the
same retry bound and the same terminal unhealthy publication. -/
theorem C5_non200_follows_error_path (cfg : HealthCheckOptions)
    (tr : Nat → AttemptOutcome) (st : Int) (k : Nat) (resp : AxiosResponseInfo)
    (hok : (tr k).result = .ok resp) (h200 : resp.status ≠ 200) :
    (httpErrorOf resp).message =
      some ("HTTP " ++ toString resp.status ++ ": " ++ resp.statusText) ∧
    checkHealth cfg tr st =
      checkHealth cfg
        (fun i => if i = k then
            { duration := (tr i).duration, result := .err (httpErrorOf resp) }
          else tr i) st := by
  refine ⟨rfl, ?_⟩
  by_cases hen : cfg.enabled = true
  · rw [checkHealth, checkHealth, if_pos hen, if_pos hen]
    exact attemptHealthCheck_non200 cfg tr st k resp hok h200 _ 0 st
  · rw [checkHealth, checkHealth, if_neg hen, if_neg hen]

/-- C5 witness: a transport answering 404 on attempt 0 produces the same
cycle as one raising Error 'HTTP 404: Not Found' there. -/
theorem C5_witness :
    (tr404 0).result = .ok resp404 ∧ resp404.status ≠ 200 ∧
    (httpErrorOf resp404).message =
      some ("HTTP " ++ toString resp404.status ++ ": " ++ resp404.statusText) ∧
    checkHealth cfgR2 tr404 0 =
      checkHealth cfgR2
        (fun i => if i = 0 then
            { duration := (tr404 i).duration, result := .err (httpErrorOf resp404) }
          else tr404 i) 0 :=
  ⟨rfl, by decide, (C5_non200_follows_error_path cfgR2 tr404 0 0 resp404 rfl (by decide)).1,
    (C5_non200_follows_error_path cfgR2 tr404 0 0 resp404 rfl (by decide)).2⟩

/-- C6: every state published by a cycle, by the resets, or initially
satisfies the invariant: healthy implies no error and recorded
responseTime within the threshold; unhealthy implies an error is
present or the recorded responseTime exceeds the threshold. -/
theorem C6_publication_invariant (cfg : HealthCheckOptions) (tr : Nat → AttemptOutcome)
    (st : Int) (prev : HealthState) :
    Option.elim (checkHealth cfg tr st) True (fun res =>
      statusInvariant cfg.responseTimeThreshold (applyPublication res.publication prev)) ∧
    statusInvariant cfg.responseTimeThreshold (resetOnDisabled prev) ∧
    statusInvariant cfg.responseTimeThreshold (urlResetUpdate prev) ∧
    statusInvariant cfg.responseTimeThreshold initialHealth := by
  refine ⟨?_, ?_, ?_, ?_⟩
  · rcases h : checkHealth cfg tr st with _ | res
    · simp
    · simp only [Option.elim]
      rw [checkHealth] at h
      by_cases hen : cfg.enabled = true
      · rw [if_pos hen] at h
        obtain ⟨-, hpub | hpub⟩ := attemptHealthCheck_shape cfg tr st _ _ _ _ h
        · obtain ⟨now, rt, det, hpub⟩ := hpub
          rw [hpub]
          by_cases hslow : cfg.responseTimeThreshold < rt
          · rw [if_pos hslow]
            simp [statusInvariant, applyPublication, hslow]
          · rw [if_neg hslow]
            simp [statusInvariant, applyPublication, not_lt.mp hslow]
        · obtain ⟨now, msg, ev, rc, det, hpub⟩ := hpub
          rw [hpub]
          simp [statusInvariant, applyPublication]
      · rw [if_neg hen] at h
        exact absurd h (by simp)
  · simp [statusInvariant, resetOnDisabled]
  · simp [statusInvariant, urlResetUpdate]
  · simp [statusInvariant, initialHealth]

/-- C7: the code violates the claim — a cycle in flight when the
monitor is disabled still publishes its result.  After disable the
snapshot is loading, but when the abandoned cycle (whose transport
failed) completes, its unguarded setHealth overwrites the state with
unhealthy. -/
theorem C7_stale_cycle_publishes_after_disable :
    (checkHealth cfgR2 trFailNet 0).map (fun res =>
      (((stepMonitor (stepMonitor
            { health := initialHealth, subscribed := true, inflight := none }
            (.startCycle res.publication)) .disableMonitor).health.status),
       ((stepMonitor (stepMonitor (stepMonitor
            { health := initialHealth, subscribed := true, inflight := none }
            (.startCycle res.publication)) .disableMonitor) .completeInflight).health.status))) =
      some (.loading, .unhealthy) := by decide

/-- C8 counterexample: the component's URL-change reset applied to a
settled state clears status, error and requestDetails, but leaves
retryCount = 2 and responseTime = 50 in place — they are not cleared as
the claim states. -/
theorem C8_counterexample :
    (urlResetUpdate prevSettled).status = .loading ∧
    (urlResetUpdate prevSettled).error = none ∧
    (urlResetUpdate prevSettled).requestDetails = none ∧
    (urlResetUpdate prevSettled).retryCount = some 2 ∧
    ¬ (urlResetUpdate prevSettled).retryCount = none ∧
    (urlResetUpdate prevSettled).responseTime = some 50 ∧
    ¬ (urlResetUpdate prevSettled).responseTime = none := by decide

/-- C8 amended: when the URL changes, the component resets status to
loading and clears lastChecked, error, rawError and requestDetails, but
leaves responseTime and retryCount unchanged (the hook itself has no
URL-change reset; its identical reset runs only when enabled is
false). -/
theorem C8_url_reset_keeps_responseTime_and_retryCount (prev : HealthState) :
    urlResetUpdate prev =
      { status := .loading, lastChecked := none, error := none,
        responseTime := prev.responseTime, retryCount := prev.retryCount,
        rawError := none, requestDetails := none } ∧
    urlResetUpdate prev = resetOnDisabled prev :=
  ⟨rfl, rfl⟩

/-- C9 counterexample: for the invalid configuration with empty URL,
negative retryAttempts and non-positive interval and threshold, the
monitor does not stay disabled: a probe cycle runs (one attempt) and
publishes a classified unhealthy status; no validation error exists. -/
theorem C9_counterexample :
    (cfgInvalid.url = "" ∧ cfgInvalid.retryAttempts < 0 ∧ cfgInvalid.interval ≤ 0 ∧
      cfgInvalid.responseTimeThreshold ≤ 0 ∧ cfgInvalid.enabled = true) ∧
    (checkHealth cfgInvalid trFailNet 0).map (fun res =>
        (res.attempts, (applyPublication res.publication initialHealth).status)) =
      some (1, .unhealthy) := by decide

/-- C9 amended: no configuration validation exists — for every
configuration, valid or not, the enabled flag alone decides whether
probe cycles run: when enabled, a cycle always runs and performs at
least one attempt. -/
theorem C9_no_validation_cycles_run (cfg : HealthCheckOptions)
    (tr : Nat → AttemptOutcome) (st : Int) (hen : cfg.enabled = true) :
    ∃ res, checkHealth cfg tr st = some res ∧ 1 ≤ res.attempts := by
  have hs := attemptHealthCheck_isSome cfg tr st cfg.retryAttempts.toNat 0 st (by omega)
  rw [checkHealth, if_pos hen]
  obtain ⟨res, hres⟩ := Option.isSome_iff_exists.mp hs
  refine ⟨res, hres, ?_⟩
  obtain ⟨hlt, -⟩ := attemptHealthCheck_shape cfg tr st _ _ _ _ hres
  omega

/-- C9 amended witness: the invalid configuration still runs a cycle. -/
theorem C9_witness :
    cfgInvalid.enabled = true ∧
    ∃ res, checkHealth cfgInvalid trFailNet 0 = some res ∧ 1 ≤ res.attempts :=
  ⟨rfl, C9_no_validation_cycles_run cfgInvalid trFailNet 0 rfl⟩

/-- C10: publications merge into the previous state — fields they do
not write are preserved.  The failure publication never writes
responseTime, so after an all-failing cycle the responseTime recorded by
an earlier successful cycle persists in the newly published unhealthy
state; the resets likewise preserve responseTime and retryCount. -/
theorem C10_merge_preserves_unwritten_fields (cfg : HealthCheckOptions)
    (tr : Nat → AttemptOutcome) (st : Int) (N : Nat) (e : Nat → ErrorValue)
    (hen : cfg.enabled = true) (hN : cfg.retryAttempts = (N : Int))
    (herr : ∀ i, i ≤ N → (tr i).result = .err (e i)) (prev : HealthState) :
    (∀ now msg raw rc det,
        (applyPublication (.failure now msg raw rc det) prev).responseTime =
          prev.responseTime) ∧
    (resetOnDisabled prev).responseTime = prev.responseTime ∧
    (resetOnDisabled prev).retryCount = prev.retryCount ∧
    (checkHealth cfg tr st).map (fun res =>
        ((applyPublication res.publication prev).responseTime,
         (applyPublication res.publication prev).status)) =
      some (prev.responseTime, .unhealthy) := by
  refine ⟨fun _ _ _ _ _ => rfl, rfl, rfl, ?_⟩
  rw [checkHealth, if_pos hen,
    attemptHealthCheck_allFail cfg tr st N e hN herr N (cfg.retryAttempts.toNat + 1) 0 st
      (by omega) (by rw [hN]; omega)]
  simp [applyPublication]

/-- C10 witness: a healthy state with responseTime 50 keeps that
responseTime when a later all-failing cycle publishes unhealthy. -/
theorem C10_witness :
    cfgR2.enabled = true ∧ cfgR2.retryAttempts = ((2 : Nat) : Int) ∧
    prevSettled.responseTime = some 50 ∧
    (checkHealth cfgR2 trFailNet 0).map (fun res =>
        ((applyPublication res.publication prevSettled).responseTime,
         (applyPublication res.publication prevSettled).status)) =
      some (some 50, .unhealthy) :=
  ⟨rfl, rfl, rfl,
    (C10_merge_preserves_unwritten_fields cfgR2 trFailNet 0 2 (fun _ => errNet) rfl rfl
      (fun _ _ => rfl) prevSettled).2.2.2⟩

end HealthChecker
